import Mathlib

/-!
# Reservation Request Orchestration & Risk-Verification Pipeline

Shallow embedding of the ticket-management API core:
* `src/recaptcha.ts` — `verifyRecaptchaV3` (Risk Verifier),
* `src/mailer.ts` — `sendReservationEmail` (Notification Trigger),
* `src/server.ts` — the `POST /createReservation`, `GET /c/:id` and
  `GET /d/:id` route handlers (Orchestrator, Outcome Classifier).

External collaborators (zod's email regex, libphonenumber, the Postgres
backend, `fetch`, nodemailer, Handlebars, the QR generator) are modelled as
oracle functions supplied through dependency records; every branch the
repository's own code takes is translated literally.  JavaScript
truthiness on optional strings (`v ? … : …`, `a || b`) is made explicit
through `truthyOpt` / `jsStrOr`.
-/

namespace TicketApi

/-- JS `String.prototype.trim()`: strip leading and trailing whitespace
(modelled over the character list so that it evaluates inside the
kernel). -/
def jsTrim (s : String) : String :=
  ⟨((s.data.dropWhile Char.isWhitespace).reverse.dropWhile
      Char.isWhitespace).reverse⟩

/-- JS truthiness of a `string | undefined` value: keep the string only when
it is present and non-empty (`action ? { action } : {}`). -/
def truthyOpt : Option String → Option String
  | some s => if s = "" then none else some s
  | none => none

/-- JS `a || b` on strings: `b` when `a` is the empty string. -/
def jsStrOr (a b : String) : String :=
  if a = "" then b else a

/-- JS falsiness of an optional string (`!token`): absent or empty. -/
def isFalsyStr : Option String → Bool
  | none => true
  | some s => s = ""

/-- JS `a || b` on optional strings, returning a truthy value or `none`. -/
def jsOr (a b : Option String) : Option String :=
  match truthyOpt a with
  | some x => some x
  | none => truthyOpt b

/-! ## Risk Verifier (`src/recaptcha.ts`) -/

/-- Module-level configuration of `src/recaptcha.ts`, read from the
environment once at process start (`RECAPTCHA_SECRET_KEY`,
`RECAPTCHA_MIN_SCORE` default `0.5`, `RECAPTCHA_EXPECTED_ACTION` trimmed,
`RECAPTCHA_ALLOWED_HOSTNAMES` split/trimmed/filtered). -/
structure RecaptchaEnv where
  secret : String
  minScore : ℚ
  expectedAction : String
  allowedHostnames : List String
  deriving Repr, DecidableEq

/-- `VerifyOptions` of `src/recaptcha.ts`. -/
structure VerifyOptions where
  remoteip : Option String := none
  expectedAction : Option String := none
  timeoutMs : Option Int := none
  deriving Repr, DecidableEq

/-- The parsed body of a Google siteverify response
(`GoogleVerifyResponse` after the `typeof` field extraction at
lines 91–98 of `recaptcha.ts`: `success` boolean-coerced, `score` kept only
when numeric, `action`/`hostname` kept only when strings,
`error-codes` kept only when an array). -/
structure GoogleResp where
  success : Bool
  score : Option ℚ
  action : Option String
  hostname : Option String
  errorCodes : List String
  deriving Repr, DecidableEq

/-- Outcome of the single `fetch` round trip: a parsed response, an
`AbortError` (the timeout timer fired and aborted the in-flight call), or
any other transport exception. -/
inductive TransportOutcome where
  | response (j : GoogleResp)
  | abortError
  | failure
  deriving Repr, DecidableEq

/-- `RecaptchaVerifyResult`: `ok` with optional score/action/hostname;
`reasons` is empty exactly on the `ok : true` variant. -/
structure RVResult where
  ok : Bool
  reasons : List String
  score : Option ℚ
  action : Option String
  hostname : Option String
  deriving Repr, DecidableEq

/-- `typeof opts?.timeoutMs === "number" ? opts.timeoutMs : 10000`. -/
def timeoutBudget : Option VerifyOptions → Int
  | some o => match o.timeoutMs with
    | some n => n
    | none => 10000
  | none => 10000

/-- The deadline mechanism (`setTimeout(() => ac.abort(), timeoutMs)`):
if the round trip takes at least the budget the timer fires first and the
fetch rejects with `AbortError`; otherwise the underlying transport
outcome is observed. -/
def effectiveTransport (opts : Option VerifyOptions) (latencyMs : Int)
    (u : TransportOutcome) : TransportOutcome :=
  if timeoutBudget opts ≤ latencyMs then .abortError else u

/-- `(RECAPTCHA_EXPECTED_ACTION || opts?.expectedAction || "").trim()` —
the system-wide expectation wins, the caller value is used only when the
system-wide one is empty. -/
def resolvedExpectedAction (env : RecaptchaEnv) (opts : Option VerifyOptions) :
    String :=
  jsTrim (jsStrOr env.expectedAction
    (jsStrOr (match opts with
      | some o => o.expectedAction.getD ""
      | none => "") ""))

/-- `expected && action !== expected` (lines 121): with a non-empty
expectation, a missing upstream action also counts as a mismatch. -/
def actionMismatch (env : RecaptchaEnv) (opts : Option VerifyOptions)
    (j : GoogleResp) : Bool :=
  (resolvedExpectedAction env opts ≠ "") ∧ j.action ≠ some (resolvedExpectedAction env opts)

/-- `typeof score === "number" && score < RECAPTCHA_MIN_SCORE` (line 131). -/
def lowScoreCheck (env : RecaptchaEnv) (j : GoogleResp) : Bool :=
  match j.score with
  | some sc => sc < env.minScore
  | none => false

/-- `RECAPTCHA_ALLOWED_HOSTNAMES.length && hostname && !includes(hostname)`
(lines 141–145): the allow-list must be non-empty and the hostname truthy. -/
def hostnameBlocked (env : RecaptchaEnv) (j : GoogleResp) : Bool :=
  (env.allowedHostnames ≠ []) &&
    match j.hostname with
    | some h => (h ≠ "") && (h ∉ env.allowedHostnames)
    | none => false

/-- `verifyRecaptchaV3` of `src/recaptcha.ts`, lines 47–156.  The second
component counts the `fetch` attempts performed (the function sends at
most one request and never retries).  The transport outcome of that single
attempt is an oracle argument. -/
def verifyRecaptchaV3 (env : RecaptchaEnv) (token : Option String)
    (opts : Option VerifyOptions) (transport : TransportOutcome) :
    RVResult × Nat :=
  if env.secret = "" then
    (⟨false, ["secret_missing"], none, none, none⟩, 0)
  else if isFalsyStr token then
    (⟨false, ["token_missing"], none, none, none⟩, 0)
  else
    match transport with
    | .abortError => (⟨false, ["verify_timeout"], none, none, none⟩, 1)
    | .failure => (⟨false, ["verify_request_failed"], none, none, none⟩, 1)
    | .response j =>
      if !j.success then
        (⟨false, (if j.errorCodes.isEmpty then ["not_success"] else j.errorCodes),
          j.score, truthyOpt j.action, truthyOpt j.hostname⟩, 1)
      else if actionMismatch env opts j then
        (⟨false, ["unexpected_action"],
          j.score, truthyOpt j.action, truthyOpt j.hostname⟩, 1)
      else if lowScoreCheck env j then
        (⟨false, ["low_score"],
          j.score, truthyOpt j.action, truthyOpt j.hostname⟩, 1)
      else if hostnameBlocked env j then
        (⟨false, ["hostname_not_allowed"],
          j.score, truthyOpt j.action, j.hostname⟩, 1)
      else
        (⟨true, [], j.score, truthyOpt j.action, truthyOpt j.hostname⟩, 1)

/-! ## Notification Trigger (`src/mailer.ts`) -/

/-- Reservation snapshot (`Resv` in `mailer.ts`). -/
structure Resv where
  code : String
  date : String
  time : String
  seats : Int
  id : String
  deriving Repr, DecidableEq

/-- Person snapshot (`Person` in `mailer.ts`). -/
structure Person where
  name : String
  email : String
  phone : String
  surname : String
  deriving Repr, DecidableEq

/-- Performance snapshot (`Performance` in `mailer.ts`). -/
structure Performance where
  city : String
  name : String
  address : String
  theater : String
  deriving Repr, DecidableEq

/-- The outcome payload consumed by `sendReservationEmail`
(`Result` in `mailer.ts`); `existing` is the optional
`"existing reservation"` snapshot. -/
structure MailResult where
  code : String
  person : Person
  performance : Performance
  reservation : Resv
  existing : Option Resv
  deriving Repr, DecidableEq

/-- Notification kind selected from the outcome code. -/
inductive NotifKind where
  | activeConfirmation
  | pendingWithConflict
  | cancellation
  deriving Repr, DecidableEq

/-- The template-selection chain of `sendReservationEmail`
(lines 132–151 of `mailer.ts`): `CREATED_ACTIVE`, `CREATED_CANCELED`,
`CREATED_PENDING` in that order, any other code falls to the
`Unknown result.code` throw (`none`). -/
def mailKindOf (c : String) : Option NotifKind :=
  if c = "CREATED_ACTIVE" then some .activeConfirmation
  else if c = "CREATED_CANCELED" then some .cancellation
  else if c = "CREATED_PENDING" then some .pendingWithConflict
  else none

/-- Template file basenames per kind (html, txt). -/
def templateFiles : NotifKind → String × String
  | .activeConfirmation => ("created_active.html", "created_active.txt")
  | .cancellation => ("created_canceled.html", "created_canceled.txt")
  | .pendingWithConflict => ("created_pending.html", "created_pending.txt")

/-- Rendering variables handed to Handlebars: `commonVars` plus, for the
pending kind only, the `existing_*` fields defaulted to `""` when the
conflicting reservation snapshot is absent. -/
structure MailVars where
  public_code : String
  name : String
  address : String
  surname : String
  production_name : String
  theater_name : String
  city : String
  date : String
  time : String
  num_seats : String
  manage_url : String
  existing_code : Option String := none
  existing_date : Option String := none
  existing_time : Option String := none
  existing_num_seats : Option String := none
  deriving Repr, DecidableEq

/-- `commonVars` of `sendReservationEmail` (lines 111–123). -/
def commonVars (baseUrl : String) (res : MailResult) : MailVars :=
  { public_code := res.reservation.code
    name := res.person.name
    address := res.performance.address
    surname := res.person.surname
    production_name := res.performance.name
    theater_name := res.performance.theater
    city := res.performance.city
    date := res.reservation.date
    time := res.reservation.time
    num_seats := toString res.reservation.seats
    manage_url := baseUrl ++ "/r/" ++ res.reservation.id }

/-- Variables for the selected kind: the pending kind extends the common
variables with the conflicting reservation's fields (lines 141–148). -/
def mailVarsOf (baseUrl : String) (res : MailResult) : NotifKind → MailVars
  | .pendingWithConflict =>
    { commonVars baseUrl res with
      existing_code := some ((res.existing.map Resv.code).getD "")
      existing_date := some ((res.existing.map Resv.date).getD "")
      existing_time := some ((res.existing.map Resv.time).getD "")
      existing_num_seats :=
        some (match res.existing with
          | some e => toString e.seats
          | none => "") }
  | _ => commonVars baseUrl res

/-- Email subject per kind (lines 153–167). -/
def emailSubject (publicCode : String) : NotifKind → String
  | .activeConfirmation => "Επιβεβαίωση κράτησης #" ++ publicCode
  | .pendingWithConflict => "Κράτηση σε αναμονή #" ++ publicCode
  | .cancellation => "Ακύρωση κράτησης #" ++ publicCode

/-- A message handed to the nodemailer transport; `qrAttachment` records
whether the QR png is attached (active-confirmation kind only). -/
structure MailMsg where
  recipient : String
  subject : String
  html : String
  text : String
  qrAttachment : Bool
  deriving Repr, DecidableEq

/-- Failure modes of `sendReservationEmail` (each a thrown exception). -/
inductive MailErr where
  | qrFailure
  | templateMissing
  | renderFailure
  | transportFailure
  | unknownOutcome
  deriving Repr, DecidableEq

/-- External collaborators of the mailer: QR generation, template path
resolution (`resolveTemplatePath`, throws when no candidate exists),
Handlebars file-read-and-render (`renderTemplate`), and the nodemailer
transport (`transporter.sendMail`). -/
structure MailDeps where
  makeQr : String → Except Unit String
  resolveTemplate : String → Except Unit String
  render : String → MailVars → Except Unit String
  sendMail : MailMsg → Except Unit Unit

/-- `sendReservationEmail` of `src/mailer.ts`, lines 49–184: QR generation
first, then the template-selection chain (throwing `Unknown result.code`
for ineligible codes), then subject selection, rendering of the html and
text bodies, and a single `transporter.sendMail` call, with the QR buffer
attached for the active-confirmation kind only.  The second component
lists the dispatch calls made to the transport. -/
def sendReservationEmail (baseUrl : String) (d : MailDeps) (res : MailResult) :
    Except MailErr Unit × List NotifKind :=
  match d.makeQr res.reservation.id with
  | .error _ => (.error .qrFailure, [])
  | .ok _ =>
    match mailKindOf res.code with
    | none => (.error .unknownOutcome, [])
    | some k =>
      match d.resolveTemplate (templateFiles k).1 with
      | .error _ => (.error .templateMissing, [])
      | .ok tplHtml =>
        match d.resolveTemplate (templateFiles k).2 with
        | .error _ => (.error .templateMissing, [])
        | .ok tplTxt =>
          let vars := mailVarsOf baseUrl res k
          match d.render tplHtml vars with
          | .error _ => (.error .renderFailure, [])
          | .ok html =>
            match d.render tplTxt vars with
            | .error _ => (.error .renderFailure, [])
            | .ok text =>
              let msg : MailMsg :=
                { recipient := res.person.email
                  subject := emailSubject res.reservation.code k
                  html := html
                  text := text
                  qrAttachment := k = .activeConfirmation }
              match d.sendMail msg with
              | .error _ => (.error .transportFailure, [k])
              | .ok _ => (.ok (), [k])

/-! ## Orchestrator and Outcome Classifier (`src/server.ts`) -/

/-- Validated identity fields (`UserSchema.safeParse` success data). -/
structure ZUser where
  name : String
  surname : String
  email : String
  phone : String
  deriving Repr, DecidableEq

/-- `z.string().trim().min(lo).max(hi)`: fails on a missing field,
otherwise trims and bounds the length. -/
def zodBoundedString (v : Option String) (lo hi : Nat) : Option String :=
  match v with
  | none => none
  | some s =>
    let t := jsTrim s
    if lo ≤ t.length ∧ t.length ≤ hi then some t else none

/-- `z.string().trim().email(...)`: trim, then the library's email
predicate (an external collaborator, supplied as an oracle). -/
def zodEmail (emailValid : String → Bool) (v : Option String) : Option String :=
  match v with
  | none => none
  | some s =>
    let t := jsTrim s
    if emailValid t then some t else none

/-- `z.string().trim()` with no further constraint (the `phone` field). -/
def zodPlainString (v : Option String) : Option String :=
  match v with
  | none => none
  | some s => some (jsTrim s)

/-- `UserSchema.safeParse` over the four identity fields
(lines 46–51, 82–94 of `server.ts`): succeeds iff every field parses. -/
def zodParseUser (emailValid : String → Bool)
    (name surname email phone : Option String) : Option ZUser :=
  match zodBoundedString name 1 80, zodBoundedString surname 1 80,
      zodEmail emailValid email, zodPlainString phone with
  | some n, some s, some e, some p => some ⟨n, s, e, p⟩
  | _, _, _, _ => none

/-- `parsePhoneNumberFromString(phone, "GR")` result: validity flag and
E.164 form (`.number`). -/
structure PhoneNumber where
  valid : Bool
  number : String
  deriving Repr, DecidableEq

/-- Inbound JSON body of `POST /createReservation`.  Fields read through
`req.body.x` may be absent (`Option`); fields passed through `String(...)`
are carried as the coerced strings. -/
structure ReqBody where
  name : Option String := none
  surname : Option String := none
  email : Option String := none
  phone : Option String := none
  recaptcha : Option String := none
  recaptcha_action : Option String := none
  date : String := ""
  time : String := ""
  production : String := ""
  theater : String := ""
  num_seats : String := ""
  known_from : Option String := none
  referer : Option String := none
  reserved_by : Option String := none
  deriving Repr, DecidableEq

/-- The canonical payload handed to
`public.create_reservation_from_json` (lines 129–146). -/
structure BackendPayload where
  userName : String
  userSurname : String
  userPhone : String
  userEmail : String
  date : String
  time : String
  production_id : String
  theater_id : String
  num_seats : String
  known_from : Option String
  referer : Option String
  reserved_by : Option String
  deriving Repr, DecidableEq

/-- A backend outcome row (`rows[0].result`): only the `code` field is
inspected by this layer; `code = none` models a result object without a
`code` property (such as the `SERVER_ERROR` fallback). -/
structure BRes where
  code : Option String := none
  deriving Repr, DecidableEq

/-- Process environment consulted by the route handler. -/
structure ServerEnv where
  recaptchaExpectedAction : Option String := none
  deriving Repr, DecidableEq

/-- External collaborators of the route handlers: zod's email regex,
libphonenumber, `verifyRecaptchaV3` (never throws), the three Postgres
entry points (`Except.error` models a thrown transport error, the inner
`Option` a row without a `result`), and `sendReservationEmail`
(`Except.error` models a thrown dispatch failure). -/
structure ServerDeps where
  emailValid : String → Bool
  parsePhone : String → Option PhoneNumber
  verify : String → Option String → Option String → RVResult
  backendCreate : BackendPayload → Except Unit (Option BRes)
  backendConfirm : String → Except Unit (Option BRes)
  backendCancel : String → Except Unit (Option BRes)
  sendEmail : BRes → Except Unit Unit

/-- Response bodies the handlers can produce, distinguished by shape:
the field-error envelope, the invalid-phone envelope, the soft-accepted
risk-rejection envelope (carrying the whole verify result as `meta`), a
pass-through backend result, and the catch-all server error. -/
inductive RespBody where
  | validationError
  | invalidPhone
  | recaptchaFailed (meta : RVResult)
  | result (r : BRes)
  | serverError
  deriving Repr, DecidableEq

/-- An HTTP response: status code plus body shape. -/
structure HttpResp where
  status : Nat
  body : RespBody
  deriving Repr, DecidableEq

/-- Observable side-effect events of one orchestrated request. -/
inductive Ev where
  | verifyCall
  | backendCall
  | emailDispatch (r : BRes)
  deriving Repr, DecidableEq

/-- The status chain of `POST /createReservation`, lines 154–173:
created codes → 200, duplicate → 409, the two not-found codes → 404, the
four client-error codes → 400, everything else → 400. -/
def classifyCreate (code : Option String) : Nat :=
  if code = some "CREATED_ACTIVE" ∨ code = some "CREATED_PENDING" then 200
  else if code = some "DUPLICATE_SAME_DATETIME" then 409
  else if code = some "PERFORMANCE_THEATER_NOT_FOUND" ∨
      code = some "PERFORMANCE_DATETIME_NOT_FOUND" then 404
  else if code = some "MISSING_FIELDS" ∨ code = some "INVALID_NUM_SEATS" ∨
      code = some "INVALID_DATE_TIME_FORMAT" ∨ code = some "INVALID_PHONE" then 400
  else 400

/-- The status chain of `GET /c/:id`, lines 192–196: `CREATED_ACTIVE`
answers 200 after the email, and the fall-through also answers 200. -/
def classifyConfirm (code : Option String) : Nat :=
  if code = some "CREATED_ACTIVE" then 200
  else 200

/-- The status chain of `GET /d/:id`, lines 216–226. -/
def classifyCancel (code : Option String) : Nat :=
  if code = some "CREATED_CANCELED" then 200
  else if code = some "NO_RESERVATION" then 404
  else if code = some "NO_PERMISSION" then 403
  else 400

/-- `process.env.RECAPTCHA_EXPECTED_ACTION || recaptchaActionFromBody`
(lines 112–113). -/
def serverExpectedAction (env : ServerEnv) (b : ReqBody) : Option String :=
  jsOr env.recaptchaExpectedAction b.recaptcha_action

/-- The backend-and-beyond tail of `POST /createReservation`
(lines 148–180): the single `pool.query` mutation, the `?? SERVER_ERROR`
fallback, outcome classification, the conditional awaited email for the
two created codes, and the surrounding `catch` that maps any thrown error
(backend or email dispatch) to a 500 `SERVER_ERROR` envelope. -/
def delegateCreate (d : ServerDeps) (payload : BackendPayload)
    (evs : List Ev) : HttpResp × List Ev :=
  match d.backendCreate payload with
  | .error _ => (⟨500, .serverError⟩, evs ++ [.backendCall])
  | .ok ro =>
    let result := ro.getD ⟨none⟩
    let code := result.code
    if code = some "CREATED_ACTIVE" ∨ code = some "CREATED_PENDING" then
      match d.sendEmail result with
      | .error _ => (⟨500, .serverError⟩, evs ++ [.backendCall, .emailDispatch result])
      | .ok _ => (⟨200, .result result⟩, evs ++ [.backendCall, .emailDispatch result])
    else
      (⟨classifyCreate code, .result result⟩, evs ++ [.backendCall])

/-- Construction of the canonical backend payload from the validated user,
the normalized phone and the raw body (lines 129–146). -/
def mkPayload (u : ZUser) (p : PhoneNumber) (b : ReqBody) : BackendPayload :=
  { userName := u.name, userSurname := u.surname
    userPhone := p.number, userEmail := u.email
    date := b.date, time := b.time
    production_id := b.production, theater_id := b.theater
    num_seats := b.num_seats
    known_from := b.known_from, referer := b.referer
    reserved_by := b.reserved_by }

/-- `POST /createReservation` (lines 80–181): zod validation, phone
normalization, optional risk verification, then delegation. -/
def createReservation (env : ServerEnv) (d : ServerDeps) (ip : Option String)
    (b : ReqBody) : HttpResp × List Ev :=
  match zodParseUser d.emailValid b.name b.surname b.email b.phone with
  | none => (⟨400, .validationError⟩, [])
  | some u =>
    match d.parsePhone u.phone with
    | none => (⟨400, .invalidPhone⟩, [])
    | some p =>
      if !p.valid then (⟨400, .invalidPhone⟩, [])
      else
        match truthyOpt b.recaptcha with
        | some t =>
          let v := d.verify t ip (serverExpectedAction env b)
          if !v.ok then
            (⟨200, .recaptchaFailed v⟩, [.verifyCall])
          else
            delegateCreate d (mkPayload u p b) [.verifyCall]
        | none => delegateCreate d (mkPayload u p b) []

/-- `GET /c/:id` (lines 184–204): confirm the reservation, email on
`CREATED_ACTIVE`, answer 200 for every non-thrown outcome. -/
def confirmReservation (d : ServerDeps) (id : String) : HttpResp × List Ev :=
  match d.backendConfirm id with
  | .error _ => (⟨500, .serverError⟩, [.backendCall])
  | .ok ro =>
    let result := ro.getD ⟨none⟩
    if result.code = some "CREATED_ACTIVE" then
      match d.sendEmail result with
      | .error _ => (⟨500, .serverError⟩, [.backendCall, .emailDispatch result])
      | .ok _ => (⟨200, .result result⟩, [.backendCall, .emailDispatch result])
    else
      (⟨classifyConfirm result.code, .result result⟩, [.backendCall])

/-- `GET /d/:id` (lines 207–234): cancel the reservation, email on
`CREATED_CANCELED`, classify the other codes. -/
def cancelReservation (d : ServerDeps) (id : String) : HttpResp × List Ev :=
  match d.backendCancel id with
  | .error _ => (⟨500, .serverError⟩, [.backendCall])
  | .ok ro =>
    let result := ro.getD ⟨none⟩
    if result.code = some "CREATED_CANCELED" then
      match d.sendEmail result with
      | .error _ => (⟨500, .serverError⟩, [.backendCall, .emailDispatch result])
      | .ok _ => (⟨200, .result result⟩, [.backendCall, .emailDispatch result])
    else
      (⟨classifyCancel result.code, .result result⟩, [.backendCall])

/-- The pipeline gate of claim C1, as a decidable predicate on the inputs:
identity validation succeeds, the phone parses as valid, and, when a risk
token was supplied, the verifier accepted. -/
def checksPassed (env : ServerEnv) (d : ServerDeps) (ip : Option String)
    (b : ReqBody) : Bool :=
  match zodParseUser d.emailValid b.name b.surname b.email b.phone with
  | none => false
  | some u =>
    match d.parsePhone u.phone with
    | none => false
    | some p =>
      p.valid &&
        match truthyOpt b.recaptcha with
        | some t => (d.verify t ip (serverExpectedAction env b)).ok
        | none => true

/-- A client-facing rejection: the 400 field-error envelope, the 400
invalid-phone envelope, or the soft-accepted 200 risk-rejection
envelope. -/
def clientRejection (r : HttpResp) : Bool :=
  match r.body with
  | .validationError => r.status = 400
  | .invalidPhone => r.status = 400
  | .recaptchaFailed _ => r.status = 200
  | _ => false

/-- Dispatch events of an event trace. -/
def emailEvents (evs : List Ev) : List BRes :=
  evs.filterMap fun e =>
    match e with
    | .emailDispatch r => some r
    | _ => none

/-! ## Fixtures used by witnesses and counterexamples -/

/-- A well-behaved dependency bundle: all external collaborators succeed
and the backend reports `CREATED_ACTIVE`. -/
def okDeps : ServerDeps :=
  { emailValid := fun _ => true
    parsePhone := fun s => some ⟨true, "+30" ++ s⟩
    verify := fun _ _ _ => ⟨true, [], none, none, none⟩
    backendCreate := fun _ => .ok (some ⟨some "CREATED_ACTIVE"⟩)
    backendConfirm := fun _ => .ok (some ⟨some "CREATED_ACTIVE"⟩)
    backendCancel := fun _ => .ok (some ⟨some "CREATED_CANCELED"⟩)
    sendEmail := fun _ => .ok () }

/-- A syntactically valid reservation request body. -/
def bodyW : ReqBody :=
  { name := some "A", surname := some "B", email := some "a@b.com"
    phone := some "6912345678", date := "01/01/26", time := "21:00"
    production := "1", theater := "2", num_seats := "3" }

/-- The same request with a missing name, so identity validation fails. -/
def bodyBad : ReqBody := { bodyW with name := none }

/-- The rational 1/2 (the default score threshold), written as an explicit
`Rat` literal so that it evaluates inside the kernel. -/
def halfQ : ℚ := ⟨1, 2, by decide, by decide⟩

/-- A verifier environment with a secret, default threshold and no
configured expectation or allow-list. -/
def envW : RecaptchaEnv := ⟨"secret", halfQ, "", []⟩

/-! ## Control-flow lemmas for the orchestrator -/

theorem delegateCreate_spec (d : ServerDeps) (pl : BackendPayload)
    (evs : List Ev) (r : BRes) (hB : d.backendCreate pl = .ok (some r)) :
    delegateCreate d pl evs =
      if r.code = some "CREATED_ACTIVE" ∨ r.code = some "CREATED_PENDING" then
        match d.sendEmail r with
        | .error _ => (⟨500, .serverError⟩, evs ++ [.backendCall, .emailDispatch r])
        | .ok _ => (⟨200, .result r⟩, evs ++ [.backendCall, .emailDispatch r])
      else (⟨classifyCreate r.code, .result r⟩, evs ++ [.backendCall]) := by
  simp [delegateCreate, hB]

theorem delegateCreate_backend_mem (d : ServerDeps) (pl : BackendPayload)
    (evs : List Ev) : Ev.backendCall ∈ (delegateCreate d pl evs).2 := by
  unfold delegateCreate
  cases hB : d.backendCreate pl with
  | error e => simp
  | ok ro =>
    simp only []
    split
    · cases hE : d.sendEmail (ro.getD ⟨none⟩) <;> simp
    · simp

theorem createReservation_checks_true (env : ServerEnv) (d : ServerDeps)
    (ip : Option String) (b : ReqBody) (h : checksPassed env d ip b = true) :
    ∃ pl evs, (evs = [] ∨ evs = [Ev.verifyCall]) ∧
      createReservation env d ip b = delegateCreate d pl evs := by
  cases hz : zodParseUser d.emailValid b.name b.surname b.email b.phone with
  | none => simp [checksPassed, hz] at h
  | some u =>
    cases hp : d.parsePhone u.phone with
    | none => simp [checksPassed, hz, hp] at h
    | some p =>
      simp only [checksPassed, hz, hp, Bool.and_eq_true] at h
      obtain ⟨hv, hrest⟩ := h
      cases htok : truthyOpt b.recaptcha with
      | none =>
        refine ⟨mkPayload u p b, [], Or.inl rfl, ?_⟩
        simp [createReservation, hz, hp, hv, htok]
      | some t =>
        simp only [htok] at hrest
        refine ⟨mkPayload u p b, [Ev.verifyCall], Or.inr rfl, ?_⟩
        simp [createReservation, hz, hp, hv, htok, hrest]

theorem createReservation_checks_false (env : ServerEnv) (d : ServerDeps)
    (ip : Option String) (b : ReqBody) (h : checksPassed env d ip b = false) :
    Ev.backendCall ∉ (createReservation env d ip b).2 ∧
      clientRejection (createReservation env d ip b).1 = true := by
  cases hz : zodParseUser d.emailValid b.name b.surname b.email b.phone with
  | none => simp [createReservation, hz, clientRejection]
  | some u =>
    cases hp : d.parsePhone u.phone with
    | none => simp [createReservation, hz, hp, clientRejection]
    | some p =>
      simp only [checksPassed, hz, hp, Bool.and_eq_false_iff] at h
      cases h with
      | inl hv => simp [createReservation, hz, hp, hv, clientRejection]
      | inr hrest =>
        cases htok : truthyOpt b.recaptcha with
        | none => simp only [htok] at hrest; simp at hrest
        | some t =>
          simp only [htok] at hrest
          cases hv : p.valid with
          | false => simp [createReservation, hz, hp, hv, clientRejection]
          | true => simp [createReservation, hz, hp, hv, htok, hrest, clientRejection]

/-- C1: the external transactional backend call of `POST /createReservation`
is reached exactly when identity validation, phone normalization and (when
a risk token was supplied) risk verification all passed; whenever the gate
fails the request terminates with a client-facing rejection (400 field
errors, 400 invalid phone, or the soft 200 risk envelope) and no backend
call occurs. -/
theorem backend_gated_by_validation_and_risk (env : ServerEnv)
    (d : ServerDeps) (ip : Option String) (b : ReqBody) :
    (Ev.backendCall ∈ (createReservation env d ip b).2 ↔
      checksPassed env d ip b = true) ∧
    (checksPassed env d ip b = false →
      Ev.backendCall ∉ (createReservation env d ip b).2 ∧
        clientRejection (createReservation env d ip b).1 = true) := by
  refine ⟨⟨fun hmem => ?_, fun h => ?_⟩, createReservation_checks_false env d ip b⟩
  · by_contra hne
    have hf : checksPassed env d ip b = false := by
      cases hc : checksPassed env d ip b with
      | false => rfl
      | true => exact absurd hc hne
    exact (createReservation_checks_false env d ip b hf).1 hmem
  · obtain ⟨pl, evs, _, heq⟩ := createReservation_checks_true env d ip b h
    rw [heq]
    exact delegateCreate_backend_mem d pl evs

/-- C1 witness: a request with a missing name is rejected client-side and
the backend is never invoked. -/
theorem backend_gated_by_validation_and_risk_witness :
    checksPassed ⟨none⟩ okDeps none bodyBad = false ∧
      (Ev.backendCall ∉ (createReservation ⟨none⟩ okDeps none bodyBad).2 ∧
        clientRejection (createReservation ⟨none⟩ okDeps none bodyBad).1 = true) :=
  ⟨by decide,
    (backend_gated_by_validation_and_risk ⟨none⟩ okDeps none bodyBad).2 (by decide)⟩

/-- Dependencies identical to `okDeps` except that the notification
dispatch throws. -/
def failMailDeps : ServerDeps := { okDeps with sendEmail := fun _ => .error () }

/-- C2 counterexample: on a valid request where the backend reports
`CREATED_ACTIVE` but the awaited notification dispatch throws, the handler
answers 500 `SERVER_ERROR` — not the already-determined 200 success
response, contrary to the claim. -/
theorem dispatch_failure_preserves_response_cex :
    (createReservation ⟨none⟩ failMailDeps none bodyW).1 = ⟨500, .serverError⟩ ∧
      (createReservation ⟨none⟩ failMailDeps none bodyW).1 ≠
        ⟨200, .result ⟨some "CREATED_ACTIVE"⟩⟩ := by decide

/-- C2 (amended): when the backend outcome is `created-active` or
`created-pending`, the HTTP response depends on the dispatch attempt: a
throwing dispatch is caught by the route's `catch` and replaces the
response with 500 `SERVER_ERROR`; only a successful dispatch lets the 200
success response determined by the outcome code reach the caller. -/
theorem dispatch_failure_yields_server_error (env : ServerEnv)
    (d : ServerDeps) (ip : Option String) (b : ReqBody) (r : BRes)
    (h : checksPassed env d ip b = true)
    (hB : ∀ pl, d.backendCreate pl = .ok (some r))
    (hcode : r.code = some "CREATED_ACTIVE" ∨ r.code = some "CREATED_PENDING") :
    ((∀ x, d.sendEmail x = .error ()) →
      (createReservation env d ip b).1 = ⟨500, .serverError⟩) ∧
    ((∀ x, d.sendEmail x = .ok ()) →
      (createReservation env d ip b).1 = ⟨200, .result r⟩) := by
  obtain ⟨pl, evs, _, heq⟩ := createReservation_checks_true env d ip b h
  rw [heq, delegateCreate_spec d pl evs r (hB pl)]
  constructor
  · intro hE
    rw [if_pos hcode, hE r]
  · intro hE
    rw [if_pos hcode, hE r]

/-- C2 amended witness: concrete run with a throwing dispatcher. -/
theorem dispatch_failure_yields_server_error_witness :
    checksPassed ⟨none⟩ failMailDeps none bodyW = true ∧
      (createReservation ⟨none⟩ failMailDeps none bodyW).1 = ⟨500, .serverError⟩ :=
  ⟨by decide,
    (dispatch_failure_yields_server_error ⟨none⟩ failMailDeps none bodyW
      ⟨some "CREATED_ACTIVE"⟩ (by decide) (fun _ => rfl) (Or.inl rfl)).1
      (fun _ => rfl)⟩

/-- The closed outcome-code vocabulary of the backend (§3 of the spec). -/
def knownOutcomeCodes : List String :=
  ["CREATED_ACTIVE", "CREATED_PENDING", "DUPLICATE_SAME_DATETIME",
   "PERFORMANCE_THEATER_NOT_FOUND", "PERFORMANCE_DATETIME_NOT_FOUND",
   "MISSING_FIELDS", "INVALID_NUM_SEATS", "INVALID_DATE_TIME_FORMAT",
   "INVALID_PHONE", "NO_RESERVATION", "NO_PERMISSION", "CREATED_CANCELED"]

/-- C3 counterexample: the classification table is not shared by every
route that inspects backend outcome codes.  The create route maps
`NO_PERMISSION` to 400, not the claimed 403, and the confirm route maps an
unrecognized code to the 200 success class, not the claimed 400. -/
theorem outcome_classification_table_cex :
    classifyCreate (some "NO_PERMISSION") = 400 ∧
      classifyCreate (some "NO_PERMISSION") ≠ 403 ∧
      classifyConfirm (some "UNRECOGNIZED_CODE") = 200 ∧
      classifyConfirm (some "UNRECOGNIZED_CODE") ≠ 400 := by decide

/-- C3 (amended): per route, the tables are: the create route maps
`DUPLICATE_SAME_DATETIME` to 409 and every code outside its handled set —
`NO_PERMISSION` included — to 400, never to a success status; the cancel
route maps `NO_PERMISSION` to 403 and unrecognized codes to 400; the
confirm route answers 200 for every outcome code, unrecognized ones
included. -/
theorem outcome_classification_tables (c : Option String)
    (h : ∀ k ∈ knownOutcomeCodes, c ≠ some k) :
    classifyCreate (some "DUPLICATE_SAME_DATETIME") = 409 ∧
      classifyCreate (some "NO_PERMISSION") = 400 ∧
      classifyCreate (some "NO_RESERVATION") = 400 ∧
      classifyCreate (some "CREATED_CANCELED") = 400 ∧
      classifyCreate c = 400 ∧ classifyCreate c ≠ 200 ∧
      classifyCancel (some "NO_PERMISSION") = 403 ∧
      classifyCancel c = 400 ∧ classifyCancel c ≠ 200 ∧
      (∀ c2 : Option String, classifyConfirm c2 = 200) := by
  have h1 := h "CREATED_ACTIVE" (by simp [knownOutcomeCodes])
  have h2 := h "CREATED_PENDING" (by simp [knownOutcomeCodes])
  have h3 := h "DUPLICATE_SAME_DATETIME" (by simp [knownOutcomeCodes])
  have h4 := h "PERFORMANCE_THEATER_NOT_FOUND" (by simp [knownOutcomeCodes])
  have h5 := h "PERFORMANCE_DATETIME_NOT_FOUND" (by simp [knownOutcomeCodes])
  have h6 := h "MISSING_FIELDS" (by simp [knownOutcomeCodes])
  have h7 := h "INVALID_NUM_SEATS" (by simp [knownOutcomeCodes])
  have h8 := h "INVALID_DATE_TIME_FORMAT" (by simp [knownOutcomeCodes])
  have h9 := h "INVALID_PHONE" (by simp [knownOutcomeCodes])
  have h10 := h "NO_RESERVATION" (by simp [knownOutcomeCodes])
  have h11 := h "NO_PERMISSION" (by simp [knownOutcomeCodes])
  have h12 := h "CREATED_CANCELED" (by simp [knownOutcomeCodes])
  have hcr : classifyCreate c = 400 := by
    simp [classifyCreate, h1, h2, h3, h4, h5, h6, h7, h8, h9]
  have hca : classifyCancel c = 400 := by
    simp [classifyCancel, h10, h11, h12]
  refine ⟨by decide, by decide, by decide, by decide, hcr, ?_, by decide,
    hca, ?_, ?_⟩
  · rw [hcr]; decide
  · rw [hca]; decide
  · intro c2; simp [classifyConfirm]

/-- C3 amended witness: evaluation at the unrecognized code
`"WEIRD_CODE"`. -/
theorem outcome_classification_tables_witness :
    (∀ k ∈ knownOutcomeCodes, (some "WEIRD_CODE" : Option String) ≠ some k) ∧
      classifyCreate (some "WEIRD_CODE") = 400 ∧
      classifyCancel (some "WEIRD_CODE") = 400 ∧
      classifyConfirm (some "WEIRD_CODE") = 200 := by
  have h := outcome_classification_tables (some "WEIRD_CODE") (by decide)
  obtain ⟨-, -, -, -, h5, -, -, h8, -, h10⟩ := h
  exact ⟨by decide, h5, h8, h10 (some "WEIRD_CODE")⟩

/-! ## Risk Verifier claims -/

/-- C4: after a transported response, the verifier's checks run in the
fixed order upstream-failure → action mismatch → score threshold →
hostname allow-list, each short-circuiting: an upstream-reported failure
reports the upstream reason codes (or `not_success`) regardless of the
later checks, each of the three later checks reports exactly its own
single reason only when every earlier check passed, and any rejection of a
successful upstream response carries exactly one reason code. -/
theorem risk_checks_ordered_short_circuit (env : RecaptchaEnv)
    (token : Option String) (opts : Option VerifyOptions) (j : GoogleResp)
    (hsec : ¬ env.secret = "") (htok : isFalsyStr token = false) :
    (j.success = false →
      (verifyRecaptchaV3 env token opts (.response j)).1.ok = false ∧
        (verifyRecaptchaV3 env token opts (.response j)).1.reasons =
          (if j.errorCodes.isEmpty then ["not_success"] else j.errorCodes)) ∧
    (j.success = true → actionMismatch env opts j = true →
      (verifyRecaptchaV3 env token opts (.response j)).1.reasons =
        ["unexpected_action"]) ∧
    (j.success = true → actionMismatch env opts j = false →
      lowScoreCheck env j = true →
      (verifyRecaptchaV3 env token opts (.response j)).1.reasons =
        ["low_score"]) ∧
    (j.success = true → actionMismatch env opts j = false →
      lowScoreCheck env j = false → hostnameBlocked env j = true →
      (verifyRecaptchaV3 env token opts (.response j)).1.reasons =
        ["hostname_not_allowed"]) ∧
    (j.success = true → actionMismatch env opts j = false →
      lowScoreCheck env j = false → hostnameBlocked env j = false →
      (verifyRecaptchaV3 env token opts (.response j)).1.ok = true ∧
        (verifyRecaptchaV3 env token opts (.response j)).1.reasons = []) ∧
    (j.success = true →
      (verifyRecaptchaV3 env token opts (.response j)).1.ok = false →
      (verifyRecaptchaV3 env token opts (.response j)).1.reasons.length = 1) := by
  refine ⟨?_, ?_, ?_, ?_, ?_, ?_⟩
  · intro hs; simp [verifyRecaptchaV3, hsec, htok, hs]
  · intro hs hm; simp [verifyRecaptchaV3, hsec, htok, hs, hm]
  · intro hs hm hl; simp [verifyRecaptchaV3, hsec, htok, hs, hm, hl]
  · intro hs hm hl hh; simp [verifyRecaptchaV3, hsec, htok, hs, hm, hl, hh]
  · intro hs hm hl hh; simp [verifyRecaptchaV3, hsec, htok, hs, hm, hl, hh]
  · intro hs hok
    cases hm : actionMismatch env opts j with
    | true => simp [verifyRecaptchaV3, hsec, htok, hs, hm]
    | false =>
      cases hl : lowScoreCheck env j with
      | true => simp [verifyRecaptchaV3, hsec, htok, hs, hm, hl]
      | false =>
        cases hh : hostnameBlocked env j with
        | true => simp [verifyRecaptchaV3, hsec, htok, hs, hm, hl, hh]
        | false => simp [verifyRecaptchaV3, hsec, htok, hs, hm, hl, hh] at hok

/-- An upstream success response with score 0 and no action/hostname. -/
def jLow : GoogleResp := ⟨true, some 0, none, none, []⟩

/-- C4 witness: with the default threshold, a score-0 response passes the
action check and is rejected by the score check with the single reason
`low_score`. -/
theorem risk_checks_ordered_short_circuit_witness :
    ¬ envW.secret = "" ∧ isFalsyStr (some "tok") = false ∧
      actionMismatch envW none jLow = false ∧ lowScoreCheck envW jLow = true ∧
      (verifyRecaptchaV3 envW (some "tok") none (.response jLow)).1.reasons =
        ["low_score"] :=
  ⟨by decide, by decide, by decide, by decide,
    (risk_checks_ordered_short_circuit envW (some "tok") none jLow
      (by decide) (by decide)).2.2.1 rfl (by decide) (by decide)⟩

/-- C5: the verifier's single external call is bounded by the time budget
(default 10 000 ms, whether options are absent or carry no numeric
budget): when the budget expires the in-flight call is aborted and the
result is the single-reason rejection `verify_timeout`; any other
transport failure yields the single-reason rejection
`verify_request_failed`; in every transported case exactly one fetch
attempt is made, so neither rejection is retried. -/
theorem verifier_timeout_bounded (env : RecaptchaEnv) (token : Option String)
    (opts : Option VerifyOptions) (latency : Int) (u : TransportOutcome)
    (hsec : ¬ env.secret = "") (htok : isFalsyStr token = false) :
    (timeoutBudget opts ≤ latency →
      verifyRecaptchaV3 env token opts (effectiveTransport opts latency u) =
        (⟨false, ["verify_timeout"], none, none, none⟩, 1)) ∧
    (latency < timeoutBudget opts → u = .failure →
      verifyRecaptchaV3 env token opts (effectiveTransport opts latency u) =
        (⟨false, ["verify_request_failed"], none, none, none⟩, 1)) ∧
    (verifyRecaptchaV3 env token opts (effectiveTransport opts latency u)).2 = 1 ∧
    timeoutBudget none = 10000 ∧
    (∀ rip ea, timeoutBudget (some ⟨rip, ea, none⟩) = 10000) := by
  refine ⟨?_, ?_, ?_, rfl, fun _ _ => rfl⟩
  · intro hle
    simp [effectiveTransport, hle, verifyRecaptchaV3, hsec, htok]
  · intro hlt hu
    subst hu
    simp [effectiveTransport, not_le.mpr hlt, verifyRecaptchaV3, hsec, htok]
  · cases et : effectiveTransport opts latency u with
    | response j =>
      simp only [verifyRecaptchaV3, hsec, htok]
      simp only [if_neg hsec, htok, Bool.false_eq_true, if_false]
      split_ifs <;> rfl
    | abortError => simp [verifyRecaptchaV3, hsec, htok]
    | failure => simp [verifyRecaptchaV3, hsec, htok]

/-- C5 witness: a round trip that takes exactly the default budget is
aborted and classified `verify_timeout` after one fetch attempt. -/
theorem verifier_timeout_bounded_witness :
    timeoutBudget none ≤ (10000 : Int) ∧
      verifyRecaptchaV3 envW (some "tok") none
          (effectiveTransport none 10000 .failure) =
        (⟨false, ["verify_timeout"], none, none, none⟩, 1) :=
  ⟨by decide,
    (verifier_timeout_bounded envW (some "tok") none 10000 .failure
      (by decide) (by decide)).1 (by decide)⟩

/-- C8: the system-wide configured expected action takes priority; the
caller-supplied expected action is consulted only when no system-wide
expectation is configured; and when the resolved expectation is non-empty
and differs from the upstream-reported action (a missing upstream action
included) the verifier rejects with the single reason
`unexpected_action`. -/
theorem expected_action_priority (env : RecaptchaEnv) (o : VerifyOptions)
    (token : Option String) (j : GoogleResp)
    (hsec : ¬ env.secret = "") (htok : isFalsyStr token = false)
    (hs : j.success = true) :
    (env.expectedAction ≠ "" →
      resolvedExpectedAction env (some o) = jsTrim env.expectedAction) ∧
    (env.expectedAction = "" →
      resolvedExpectedAction env (some o) = jsTrim (o.expectedAction.getD "")) ∧
    (resolvedExpectedAction env (some o) ≠ "" →
      j.action ≠ some (resolvedExpectedAction env (some o)) →
      (verifyRecaptchaV3 env token (some o) (.response j)).1.ok = false ∧
        (verifyRecaptchaV3 env token (some o) (.response j)).1.reasons =
          ["unexpected_action"]) := by
  refine ⟨?_, ?_, ?_⟩
  · intro h; simp [resolvedExpectedAction, jsStrOr, h]
  · intro h
    by_cases hg : o.expectedAction.getD "" = "" <;>
      simp [resolvedExpectedAction, jsStrOr, h, hg]
  · intro h1 h2
    have hm : actionMismatch env (some o) j = true := by
      simp [actionMismatch, h1, h2]
    simp [verifyRecaptchaV3, hsec, htok, hs, hm]

/-- Verifier environment with configured expectation `"reserve"`. -/
def envAct : RecaptchaEnv := ⟨"secret", halfQ, "reserve", []⟩

/-- Caller options supplying the conflicting expectation `"other"`. -/
def oW : VerifyOptions := ⟨none, some "other", none⟩

/-- An upstream success response reporting action `"other"`. -/
def jAct : GoogleResp := ⟨true, none, some "other", none, []⟩

/-- C8 witness: the configured expectation `"reserve"` overrides the
caller's `"other"`, and the matching upstream action `"other"` is
therefore rejected with `unexpected_action`. -/
theorem expected_action_priority_witness :
    envAct.expectedAction ≠ "" ∧
      resolvedExpectedAction envAct (some oW) = jsTrim envAct.expectedAction ∧
      (verifyRecaptchaV3 envAct (some "tok") (some oW) (.response jAct)).1.reasons =
        ["unexpected_action"] :=
  ⟨by decide,
    (expected_action_priority envAct oW (some "tok") jAct
      (by decide) (by decide) rfl).1 (by decide),
    ((expected_action_priority envAct oW (some "tok") jAct
      (by decide) (by decide) rfl).2.2 (by decide) (by decide)).2⟩

/-- C10: a successful upstream response carrying no numeric score skips
the minimum-score check entirely — it is never rejected with `low_score`
whatever the configured minimum — and, absent an action mismatch and a
hostname violation, it is accepted with no score field. -/
theorem missing_score_skips_threshold (env : RecaptchaEnv)
    (token : Option String) (opts : Option VerifyOptions) (j : GoogleResp)
    (hsec : ¬ env.secret = "") (htok : isFalsyStr token = false)
    (hs : j.success = true) (hsc : j.score = none) :
    "low_score" ∉ (verifyRecaptchaV3 env token opts (.response j)).1.reasons ∧
    (actionMismatch env opts j = false → hostnameBlocked env j = false →
      (verifyRecaptchaV3 env token opts (.response j)).1 =
        ⟨true, [], none, truthyOpt j.action, truthyOpt j.hostname⟩) := by
  have hlow : lowScoreCheck env j = false := by simp [lowScoreCheck, hsc]
  constructor
  · cases hm : actionMismatch env opts j <;>
      cases hh : hostnameBlocked env j <;>
      simp [verifyRecaptchaV3, hsec, htok, hs, hm, hh, hlow]
  · intro hm hh
    simp [verifyRecaptchaV3, hsec, htok, hs, hm, hh, hlow, hsc]

/-- An upstream success response with no score, action or hostname. -/
def jNoScore : GoogleResp := ⟨true, none, none, none, []⟩

/-- C10 witness: a scoreless success is accepted with no score field. -/
theorem missing_score_skips_threshold_witness :
    jNoScore.success = true ∧ jNoScore.score = none ∧
      (verifyRecaptchaV3 envW (some "tok") none (.response jNoScore)).1 =
        ⟨true, [], none, none, none⟩ :=
  ⟨rfl, rfl,
    (missing_score_skips_threshold envW (some "tok") none jNoScore
      (by decide) (by decide) rfl rfl).2 (by decide) (by decide)⟩

/-! ## Notification claims -/

/-- C6: from a create-reservation call exactly the outcome codes
`CREATED_ACTIVE` and `CREATED_PENDING`, and from a cancel call exactly
`CREATED_CANCELED`, trigger exactly one notification dispatch, whose kind
(selected by the mailer from the code) matches the code; every other
outcome code triggers zero dispatches for that request. -/
theorem notification_dispatch_per_outcome (env : ServerEnv) (d : ServerDeps)
    (ip : Option String) (b : ReqBody) (id : String) (r rc : BRes)
    (h : checksPassed env d ip b = true)
    (hB : ∀ pl, d.backendCreate pl = .ok (some r))
    (hC : ∀ s, d.backendCancel s = .ok (some rc)) :
    (emailEvents (createReservation env d ip b).2 =
      if r.code = some "CREATED_ACTIVE" ∨ r.code = some "CREATED_PENDING"
      then [r] else []) ∧
    (emailEvents (cancelReservation d id).2 =
      if rc.code = some "CREATED_CANCELED" then [rc] else []) ∧
    mailKindOf "CREATED_ACTIVE" = some .activeConfirmation ∧
    mailKindOf "CREATED_PENDING" = some .pendingWithConflict ∧
    mailKindOf "CREATED_CANCELED" = some .cancellation := by
  refine ⟨?_, ?_, rfl, rfl, rfl⟩
  · obtain ⟨pl, evs, hevs, heq⟩ := createReservation_checks_true env d ip b h
    rw [heq, delegateCreate_spec d pl evs r (hB pl)]
    rcases hevs with h' | h' <;> subst h' <;>
      (split_ifs with hco
       · cases hE : d.sendEmail r <;> simp [hE, emailEvents]
       · simp [emailEvents])
  · simp only [cancelReservation, hC id, Option.getD_some]
    split_ifs with hco
    · cases hE : d.sendEmail rc <;> simp [hE, emailEvents]
    · simp [emailEvents]

/-- C6 witness: with the backend reporting `CREATED_ACTIVE` on create and
`CREATED_CANCELED` on cancel, each request dispatches exactly once. -/
theorem notification_dispatch_per_outcome_witness :
    checksPassed ⟨none⟩ okDeps none bodyW = true ∧
      emailEvents (createReservation ⟨none⟩ okDeps none bodyW).2 =
        [⟨some "CREATED_ACTIVE"⟩] ∧
      emailEvents (cancelReservation okDeps "id1").2 =
        [⟨some "CREATED_CANCELED"⟩] :=
  ⟨by decide,
    by simpa using
      (notification_dispatch_per_outcome ⟨none⟩ okDeps none bodyW "id1"
        ⟨some "CREATED_ACTIVE"⟩ ⟨some "CREATED_CANCELED"⟩
        (by decide) (fun _ => rfl) (fun _ => rfl)).1,
    by simpa using
      (notification_dispatch_per_outcome ⟨none⟩ okDeps none bodyW "id1"
        ⟨some "CREATED_ACTIVE"⟩ ⟨some "CREATED_CANCELED"⟩
        (by decide) (fun _ => rfl) (fun _ => rfl)).2.1⟩

/-- C7: when a supplied risk token is rejected by the verifier, the
handler's whole response is the soft-accepted envelope — HTTP status 200
with the distinguished risk-failure body carrying the entire verify result
(its rejection reasons included) as metadata — and no backend call occurs;
in particular the response is neither an error status nor the field-error
envelope. -/
theorem risk_rejection_soft_envelope (env : ServerEnv) (d : ServerDeps)
    (ip : Option String) (b : ReqBody) (u : ZUser) (p : PhoneNumber)
    (t : String)
    (hz : zodParseUser d.emailValid b.name b.surname b.email b.phone = some u)
    (hp : d.parsePhone u.phone = some p) (hv : p.valid = true)
    (htok : truthyOpt b.recaptcha = some t)
    (hver : (d.verify t ip (serverExpectedAction env b)).ok = false) :
    createReservation env d ip b =
      (⟨200, .recaptchaFailed (d.verify t ip (serverExpectedAction env b))⟩,
        [Ev.verifyCall]) := by
  simp [createReservation, hz, hp, hv, htok, hver]

/-- Dependencies whose verifier rejects every token with `low_score`. -/
def riskRejectDeps : ServerDeps :=
  { okDeps with verify := fun _ _ _ => ⟨false, ["low_score"], some 0, none, none⟩ }

/-- The valid request body extended with a risk token. -/
def bodyTok : ReqBody := { bodyW with recaptcha := some "tok" }

/-- The validated identity fields of `bodyTok`. -/
def uW : ZUser := ⟨"A", "B", "a@b.com", "6912345678"⟩

/-- C7 witness: a concrete run whose token is rejected answers the soft
200 envelope with the rejection carried as metadata. -/
theorem risk_rejection_soft_envelope_witness :
    zodParseUser riskRejectDeps.emailValid bodyTok.name bodyTok.surname
        bodyTok.email bodyTok.phone = some uW ∧
      truthyOpt bodyTok.recaptcha = some "tok" ∧
      createReservation ⟨none⟩ riskRejectDeps none bodyTok =
        (⟨200, .recaptchaFailed ⟨false, ["low_score"], some 0, none, none⟩⟩,
          [Ev.verifyCall]) :=
  ⟨by decide, by decide,
    risk_rejection_soft_envelope ⟨none⟩ riskRejectDeps none bodyTok uW
      ⟨true, "+306912345678"⟩ "tok" (by decide) (by decide) (by decide)
      (by decide) (by decide)⟩

/-- C9: invoked with an outcome code outside the three eligible ones, the
Notification Trigger performs zero dispatch calls and (when the preceding
QR generation succeeds, the only fallible step before the code check)
fails with the unknown-outcome error. -/
theorem unknown_outcome_no_dispatch (baseUrl : String) (d : MailDeps)
    (res : MailResult) (q : String)
    (h1 : res.code ≠ "CREATED_ACTIVE") (h2 : res.code ≠ "CREATED_PENDING")
    (h3 : res.code ≠ "CREATED_CANCELED") :
    (sendReservationEmail baseUrl d res).2 = [] ∧
    (d.makeQr res.reservation.id = .ok q →
      sendReservationEmail baseUrl d res = (.error .unknownOutcome, [])) := by
  have hk : mailKindOf res.code = none := by simp [mailKindOf, h1, h2, h3]
  constructor
  · cases hq : d.makeQr res.reservation.id <;>
      simp [sendReservationEmail, hq, hk]
  · intro hq
    simp [sendReservationEmail, hq, hk]

/-- Mailer dependencies whose collaborators all succeed. -/
def okMailDeps : MailDeps :=
  ⟨fun _ => .ok "qr", fun f => .ok f, fun _ _ => .ok "rendered", fun _ => .ok ()⟩

/-- An outcome payload with the ineligible code
`DUPLICATE_SAME_DATETIME`. -/
def resDup : MailResult :=
  ⟨"DUPLICATE_SAME_DATETIME", ⟨"A", "a@b.com", "+306912345678", "B"⟩,
    ⟨"Athens", "Show", "Street 1", "Main"⟩, ⟨"PC1", "01/01/26", "21:00", 2, "id1"⟩,
    none⟩

/-- C9 witness: the ineligible code throws `Unknown result.code` with zero
dispatches even though every collaborator succeeds. -/
theorem unknown_outcome_no_dispatch_witness :
    resDup.code ≠ "CREATED_ACTIVE" ∧
      sendReservationEmail "https://b" okMailDeps resDup =
        (.error .unknownOutcome, []) :=
  ⟨by decide,
    (unknown_outcome_no_dispatch "https://b" okMailDeps resDup "qr"
      (by decide) (by decide) (by decide)).2 rfl⟩

end TicketApi
